import Mathlib

/-!
Verification of `spy-alert-bot` (`src/bot.py`) against its specification.

The Python module is shallowly embedded below.  Ambient inputs of a run —
the current UTC time, the HTTP response of the position fetch, and the
process environment — are passed explicitly:

* the environment-derived module globals become fields of `Config`;
* `datetime.now(timezone.utc)` becomes explicit `hour`/`minute` arguments;
* the single outbound `requests.get` is modelled by handing the run the
  `HttpResponse` the server would produce; `Response.raise_for_status`
  raises `requests.HTTPError` exactly for status codes in `[400, 600)`;
* Python exceptions become `Option`/`Except`: `none`/`.error` is a raised
  exception propagating out of the modelled code;
* `print(...)`/`print(..., file=sys.stderr)` become lists of emitted lines;
* the SMTP side effect of `send_email` becomes a `SendEffect` record.

Python's `int(...)` and `int(float(...))` string conversions are modelled
for optionally signed ASCII decimal literals (`strip` of surrounding
whitespace, optional `+`/`-`, digits, and for `float` an optional single
`.` with digits around it, truncated toward zero).  Unicode digits,
underscore separators, exponent notation and IEEE-754 rounding of long
fractions are outside the inputs exercised here and are not modelled.
-/

namespace SpyBot

/-- Truthiness of a Python string: non-empty. -/
def pyTruthy (s : String) : Bool := !s.isEmpty

/-- ASCII model of Python `str.upper()`. -/
def pyUpper (s : String) : String := String.mk (s.toList.map Char.toUpper)

/-- Split a character list at every occurrence of `sep`
(the semantics of Python `str.split(sep)` for a one-character separator). -/
def splitOnChar (sep : Char) : List Char → List (List Char)
  | [] => [[]]
  | c :: rest =>
      if c = sep then [] :: splitOnChar sep rest
      else
        match splitOnChar sep rest with
        | [] => [[c]]
        | h :: t => (c :: h) :: t

/-- Python `s.split(sep)` for a one-character separator. -/
def pySplit (s : String) (sep : Char) : List String :=
  (splitOnChar sep s.toList).map String.mk

/-- Python `s.strip()`: drop leading and trailing whitespace. -/
def pyStrip (s : String) : String :=
  String.mk (((s.toList.dropWhile Char.isWhitespace).reverse.dropWhile
    Char.isWhitespace).reverse)

/-- Accumulating digit parser: consumes decimal digits, `none` on any
non-digit character. -/
def digitsAux : Nat → List Char → Option Nat
  | acc, [] => some acc
  | acc, c :: cs =>
      if c.isDigit then digitsAux (acc * 10 + (c.toNat - 48)) cs else none

/-- Value of a non-empty all-digit character list; `none` otherwise. -/
def pyDigits? : List Char → Option Nat
  | [] => none
  | c :: cs => digitsAux 0 (c :: cs)

/-- Python `int(s)` on a string: strip whitespace, optional sign, decimal
digits.  `none` models a raised `ValueError`. -/
def pyInt? (s : String) : Option Int :=
  match (pyStrip s).toList with
  | '-' :: rest => (pyDigits? rest).map (fun n => -(n : Int))
  | '+' :: rest => (pyDigits? rest).map (fun n => (n : Int))
  | cs => (pyDigits? cs).map (fun n => (n : Int))

/-- Magnitude of `int(float(s))` for an unsigned decimal body: either all
digits, or digits (possibly none) around a single `.` (not both sides
empty).  Truncation toward zero keeps only the integer part. -/
def pyFloatBody? (cs : List Char) : Option Nat :=
  match splitOnChar '.' cs with
  | [ip] => pyDigits? ip
  | [ip, fp] =>
      if ip.isEmpty && fp.isEmpty then none
      else if ip.all Char.isDigit && fp.all Char.isDigit then
        some (ip.foldl (fun a c => a * 10 + (c.toNat - 48)) 0)
      else none
  | _ => none

/-- Python `int(float(s))`: strip whitespace, optional sign, decimal body,
truncated toward zero.  `none` models a raised `ValueError`. -/
def pyFloatTruncInt? (s : String) : Option Int :=
  match (pyStrip s).toList with
  | '-' :: rest => (pyFloatBody? rest).map (fun n => -(n : Int))
  | '+' :: rest => (pyFloatBody? rest).map (fun n => (n : Int))
  | cs => (pyFloatBody? cs).map (fun n => (n : Int))

/-- Python `dict.get(key, dflt)` over a JSON object modelled as an
association list of string fields. -/
def pyDictGet (d : List (String × String)) (key dflt : String) : String :=
  match d.lookup key with
  | some v => v
  | none => dflt

/-- The environment-derived module configuration of `bot.py`
(`TO_EMAIL` … `MODE`), immutable for the run. -/
structure Config where
  to_email : String
  from_email : String
  smtp_host : String
  smtp_user : String
  smtp_pass : String
  symbol : String
  max_trades_per_day : Int
  window_start : String
  window_end : String
  mode : String
  deriving DecidableEq

/-- `hhmm_to_minutes`: `h, m = hhmm.split(":"); return int(h)*60+int(m)`.
`none` models the raised exception (unpacking error or `ValueError`). -/
def hhmm_to_minutes (hhmm : String) : Option Int :=
  match pySplit hhmm ':' with
  | [h, m] =>
      match pyInt? h, pyInt? m with
      | some hv, some mv => some (hv * 60 + mv)
      | _, _ => none
  | _ => none

/-- Minute of day of a UTC timestamp: `dt.hour * 60 + dt.minute`. -/
def minute_of_day (hour minute : Nat) : Nat := hour * 60 + minute

/-- `in_window_utc`: compares the timestamp's minute of day against both
configured boundaries, inclusively.  `none` models a raised parse error. -/
def in_window_utc (cfg : Config) (hour minute : Nat) : Option Bool :=
  match hhmm_to_minutes cfg.window_start, hhmm_to_minutes cfg.window_end with
  | some s, some e =>
      some (decide (s ≤ (minute_of_day hour minute : Int) ∧
                    (minute_of_day hour minute : Int) ≤ e))
  | _, _ => none

/-- The HTTP response the positions endpoint returns for this run: status
code and the JSON object body (string-valued fields). -/
structure HttpResponse where
  status : Nat
  json : List (String × String)
  deriving DecidableEq

/-- Exceptions escaping the position fetch. -/
inductive FetchError where
  /-- `requests.HTTPError` carrying the response status. -/
  | httpError (status : Nat)
  /-- `ValueError` from `int(float(...))` on a malformed `qty` field. -/
  | valueError
  deriving DecidableEq

/-- `alpaca_get`: performs the GET and calls `raise_for_status`, which
raises `HTTPError` exactly for status codes in `[400, 600)`; otherwise
yields the parsed JSON body. -/
def alpaca_get (resp : HttpResponse) : Except FetchError (List (String × String)) :=
  if 400 ≤ resp.status ∧ resp.status < 600 then .error (.httpError resp.status)
  else .ok resp.json

/-- `get_open_position_qty`: fetch the position, read `qty` (defaulting to
`"0"`), truncate to int; an `HTTPError` with status 404 is caught and
yields 0, every other exception propagates. -/
def get_open_position_qty (resp : HttpResponse) : Except FetchError Int :=
  match alpaca_get resp with
  | .ok pos =>
      match pyFloatTruncInt? (pyDictGet pos "qty" "0") with
      | some q => .ok q
      | none => .error .valueError
  | .error (.httpError status) =>
      if status = 404 then .ok 0 else .error (.httpError status)
  | .error e => .error e

/-- Observable effect of one `send_email` call. -/
structure SendEffect where
  /-- whether an SMTP session was opened -/
  session_opened : Bool
  /-- the message handed to the SMTP session, when one was sent -/
  message : Option (String × String)
  /-- lines written to the error stream -/
  stderr : List String
  deriving DecidableEq

/-- `send_email`: if any of the five required mail settings is empty
(Python truthiness chain), print a diagnostic to stderr and return without
opening a session; otherwise open the session and send the message. -/
def send_email (cfg : Config) (subject body : String) : SendEffect :=
  if !(pyTruthy cfg.to_email && pyTruthy cfg.from_email && pyTruthy cfg.smtp_host
        && pyTruthy cfg.smtp_user && pyTruthy cfg.smtp_pass) then
    { session_opened := false, message := none
      stderr := ["Missing email/SMTP env vars; cannot send."] }
  else
    { session_opened := true, message := some (subject, body), stderr := [] }

/-- `buy_alert`: fixed subject and templated body. -/
def buy_alert (cfg : Config) (qty : Int) : String × String :=
  ("BUY SPY — ACTION REQUIRED",
   "BUY " ++ (cfg.symbol ++ (" NOW\nQty: " ++ (toString qty ++
     "\nOrder: Market\nMax Risk: $50 (paper)\n\nOpen Alpaca and BUY within 5 minutes.\n"))))

/-- `sell_alert`: fixed subject and templated body. -/
def sell_alert (cfg : Config) (qty : Int) (reason : String) : String × String :=
  ("SELL SPY — ACTION REQUIRED",
   "SELL " ++ (cfg.symbol ++ (" NOW\nQty: " ++ (toString qty ++
     ("\nReason: " ++ (reason ++ "\n\nOpen Alpaca and SELL immediately.\n"))))))

/-- Exceptions escaping a whole run of `decide_and_notify`. -/
inductive RunError where
  /-- parse error from the window-boundary strings -/
  | windowParseError
  /-- exception propagating out of the position fetch -/
  | fetchError (e : FetchError)
  deriving DecidableEq

/-- Observable trace of a completed run: the `(subject, body)` arguments of
each `send_email` call, and the lines printed to standard output. -/
structure RunTrace where
  send_calls : List (String × String)
  stdout : List String
  deriving DecidableEq

/-- `decide_and_notify`: window gate, position fetch, then the mode-split
decision stub.  `.error` models an uncaught exception terminating the run. -/
def decide_and_notify (cfg : Config) (hour minute : Nat) (resp : HttpResponse) :
    Except RunError RunTrace :=
  match in_window_utc cfg hour minute with
  | none => .error .windowParseError
  | some false => .ok { send_calls := [], stdout := ["Outside window; exiting."] }
  | some true =>
    match get_open_position_qty resp with
    | .error e => .error (.fetchError e)
    | .ok qty_open =>
      if pyUpper cfg.mode = "DRY_RUN" then
        if qty_open = 0 ∧ minute = 40 then
          let alert := buy_alert cfg 1
          .ok { send_calls := [alert], stdout := ["Sent DRY_RUN BUY."] }
        else if qty_open > 0 ∧ minute = 55 then
          let alert := sell_alert cfg qty_open "DRY_RUN exit"
          .ok { send_calls := [alert], stdout := ["Sent DRY_RUN SELL."] }
        else
          .ok { send_calls := [], stdout := ["DRY_RUN: no message this minute."] }
      else
        .ok { send_calls := [], stdout := ["LIVE: strategy not enabled; no alerts."] }

/-- Boolean list-prefix test (decidable, used by the substring test). -/
def prefixOfB : List Char → List Char → Bool
  | [], _ => true
  | _ :: _, [] => false
  | a :: s, b :: t => a = b && prefixOfB s t

/-- Boolean contiguous-sublist test. -/
def infixOfB (sub : List Char) : List Char → Bool
  | [] => sub.isEmpty
  | c :: t => prefixOfB sub (c :: t) || infixOfB sub t

/-- `sub` occurs as a contiguous substring of `s`. -/
def strContains (s sub : String) : Bool := infixOfB sub.toList s.toList

/-- A configuration with the defaults of `bot.py` (mail settings filled in,
paper symbol SPY, default window, DRY_RUN mode). -/
def cfgDefault : Config :=
  { to_email := "to@example.com", from_email := "from@example.com"
    smtp_host := "smtp.example.com", smtp_user := "user", smtp_pass := "pass"
    symbol := "SPY", max_trades_per_day := 1
    window_start := "14:35", window_end := "16:00", mode := "DRY_RUN" }

/-- A configuration whose end boundary is numerically out of range. -/
def cfgBadEnd : Config := { cfgDefault with window_end := "99:99" }

/-- A configuration in live mode. -/
def cfgLive : Config := { cfgDefault with mode := "LIVE" }

/-- A configuration missing the SMTP password. -/
def cfgNoPass : Config := { cfgDefault with smtp_pass := "" }

/- ------------------------------------------------------------------ -/
/- Helper lemmas                                                      -/
/- ------------------------------------------------------------------ -/

theorem infixOfB_append (sub r : List Char) (x : List Char)
    (h : infixOfB sub r = true) : infixOfB sub (x ++ r) = true := by
  induction x with
  | nil => simpa using h
  | cons a t ih => simp [infixOfB, ih]

theorem strContains_append (x r sub : String)
    (h : strContains r sub = true) : strContains (x ++ r) sub = true := by
  unfold strContains at h ⊢
  have hx : (x ++ r).toList = x.toList ++ r.toList := by
    simp [String.toList, String.data_append]
  rw [hx]
  exact infixOfB_append _ _ _ h

/- ------------------------------------------------------------------ -/
/- Claims                                                             -/
/- ------------------------------------------------------------------ -/

/-- Claim C1: for every UTC timestamp and every pair of boundary strings
accepted by `hhmm_to_minutes` (converting `"HH:MM"` via `H*60+M`), the
window gate `in_window_utc` returns true iff
`start_minutes ≤ minute_of_day ≤ end_minutes`, inclusive on both ends. -/
theorem window_gate_iff (cfg : Config) (hour minute : Nat) (s e : Int)
    (hs : hhmm_to_minutes cfg.window_start = some s)
    (he : hhmm_to_minutes cfg.window_end = some e) :
    in_window_utc cfg hour minute = some true ↔
      s ≤ (minute_of_day hour minute : Int) ∧ (minute_of_day hour minute : Int) ≤ e := by
  unfold in_window_utc
  rw [hs, he]
  simp

/-- Witness for C1: the default boundaries parse to 875 and 960, and the
gate at 15:00 UTC (minute of day 900) agrees with the inequalities. -/
theorem window_gate_iff_witness :
    (hhmm_to_minutes cfgDefault.window_start = some 875
      ∧ hhmm_to_minutes cfgDefault.window_end = some 960)
    ∧ (in_window_utc cfgDefault 15 0 = some true ↔
        875 ≤ (minute_of_day 15 0 : Int) ∧ (minute_of_day 15 0 : Int) ≤ 960) :=
  ⟨⟨rfl, rfl⟩, window_gate_iff cfgDefault 15 0 875 960 rfl rfl⟩

/-- Claim C2: a position fetch whose HTTP response has status 404 makes
`get_open_position_qty` return exactly 0 without raising. -/
theorem qty_404_returns_zero (resp : HttpResponse) (h : resp.status = 404) :
    get_open_position_qty resp = .ok 0 := by
  unfold get_open_position_qty alpaca_get
  rw [h]
  norm_num

/-- Witness for C2 at a concrete 404 response. -/
theorem qty_404_returns_zero_witness :
    (⟨404, []⟩ : HttpResponse).status = 404
    ∧ get_open_position_qty ⟨404, []⟩ = .ok 0 :=
  ⟨rfl, qty_404_returns_zero ⟨404, []⟩ rfl⟩

/-- Counterexample for C3: in DRY_RUN mode with fetched quantity 5 at UTC
minute 55 inside the window, exactly one SELL email is attempted with
subject "SELL SPY — ACTION REQUIRED" and a body containing "Qty: 5", but
the body does NOT contain "Reason: test exit" (the code passes the reason
string "DRY_RUN exit"). -/
theorem dry_run_sell_reason_cex :
    decide_and_notify cfgDefault 15 55 ⟨200, [("qty", "5")]⟩ =
      .ok { send_calls := [sell_alert cfgDefault 5 "DRY_RUN exit"]
            stdout := ["Sent DRY_RUN SELL."] }
    ∧ (sell_alert cfgDefault 5 "DRY_RUN exit").1 = "SELL SPY — ACTION REQUIRED"
    ∧ strContains (sell_alert cfgDefault 5 "DRY_RUN exit").2 "Qty: 5" = true
    ∧ strContains (sell_alert cfgDefault 5 "DRY_RUN exit").2 "Reason: test exit" = false :=
  ⟨rfl, rfl, rfl, rfl⟩

/-- Amended C3: in DRY_RUN mode, for a run with fetched quantity 5 at UTC
minute 55 inside the window, exactly one SELL email is attempted, with
subject "SELL SPY — ACTION REQUIRED" and a body containing "Qty: 5" and
"Reason: DRY_RUN exit". -/
theorem dry_run_sell_email (cfg : Config) (resp : HttpResponse) (hour : Nat)
    (hmode : pyUpper cfg.mode = "DRY_RUN")
    (hwin : in_window_utc cfg hour 55 = some true)
    (hq : get_open_position_qty resp = .ok 5) :
    decide_and_notify cfg hour 55 resp =
      .ok { send_calls := [sell_alert cfg 5 "DRY_RUN exit"]
            stdout := ["Sent DRY_RUN SELL."] }
    ∧ (sell_alert cfg 5 "DRY_RUN exit").1 = "SELL SPY — ACTION REQUIRED"
    ∧ strContains (sell_alert cfg 5 "DRY_RUN exit").2 "Qty: 5" = true
    ∧ strContains (sell_alert cfg 5 "DRY_RUN exit").2 "Reason: DRY_RUN exit" = true := by
  refine ⟨?_, rfl, ?_, ?_⟩
  · unfold decide_and_notify
    rw [hwin, hq, hmode]
    norm_num
  · unfold sell_alert
    exact strContains_append _ _ _ (strContains_append _ _ _ rfl)
  · unfold sell_alert
    exact strContains_append _ _ _ (strContains_append _ _ _ rfl)

/-- Witness for the amended C3 at the default configuration. -/
theorem dry_run_sell_email_witness :
    decide_and_notify cfgDefault 15 55 ⟨200, [("qty", "5")]⟩ =
      .ok { send_calls := [sell_alert cfgDefault 5 "DRY_RUN exit"]
            stdout := ["Sent DRY_RUN SELL."] }
    ∧ (sell_alert cfgDefault 5 "DRY_RUN exit").1 = "SELL SPY — ACTION REQUIRED"
    ∧ strContains (sell_alert cfgDefault 5 "DRY_RUN exit").2 "Qty: 5" = true
    ∧ strContains (sell_alert cfgDefault 5 "DRY_RUN exit").2 "Reason: DRY_RUN exit" = true :=
  dry_run_sell_email cfgDefault ⟨200, [("qty", "5")]⟩ 15 rfl rfl rfl

/-- Claim C4: whenever any of the five required mail settings is empty,
`send_email` skips the send entirely, writes the diagnostic to the error
stream, returns normally, and opens no mail session. -/
theorem mail_skip_on_missing_config (cfg : Config) (subject body : String)
    (h : cfg.to_email = "" ∨ cfg.from_email = "" ∨ cfg.smtp_host = ""
         ∨ cfg.smtp_user = "" ∨ cfg.smtp_pass = "") :
    send_email cfg subject body =
      { session_opened := false, message := none
        stderr := ["Missing email/SMTP env vars; cannot send."] } := by
  have hfalse : (pyTruthy cfg.to_email && pyTruthy cfg.from_email
      && pyTruthy cfg.smtp_host && pyTruthy cfg.smtp_user
      && pyTruthy cfg.smtp_pass) = false := by
    rcases h with h | h | h | h | h <;> rw [h] <;>
      simp [show pyTruthy "" = false from rfl]
  unfold send_email
  rw [hfalse]
  rfl

/-- Witness for C4: empty SMTP password skips the send. -/
theorem mail_skip_on_missing_config_witness :
    cfgNoPass.smtp_pass = ""
    ∧ send_email cfgNoPass "s" "b" =
        { session_opened := false, message := none
          stderr := ["Missing email/SMTP env vars; cannot send."] } :=
  ⟨rfl, mail_skip_on_missing_config cfgNoPass "s" "b"
    (Or.inr (Or.inr (Or.inr (Or.inr rfl))))⟩

/-- Claim C5: in live mode (MODE not case-insensitively "DRY_RUN"), for
every fetched quantity and every in-window minute, the run attempts no
email. -/
theorem live_mode_no_email (cfg : Config) (hour minute : Nat)
    (resp : HttpResponse) (q : Int)
    (hmode : pyUpper cfg.mode ≠ "DRY_RUN")
    (hwin : in_window_utc cfg hour minute = some true)
    (hq : get_open_position_qty resp = .ok q) :
    decide_and_notify cfg hour minute resp =
      .ok { send_calls := [], stdout := ["LIVE: strategy not enabled; no alerts."] } := by
  unfold decide_and_notify
  rw [hwin, hq]
  simp [hmode]

/-- Witness for C5 at mode "LIVE", an in-window minute and quantity 5. -/
theorem live_mode_no_email_witness :
    decide_and_notify cfgLive 15 55 ⟨200, [("qty", "5")]⟩ =
      .ok { send_calls := [], stdout := ["LIVE: strategy not enabled; no alerts."] } :=
  live_mode_no_email cfgLive 15 55 ⟨200, [("qty", "5")]⟩ 5 (by decide) rfl rfl

/-- Counterexample for C6: a non-2xx status outside `[400, 600)` — here
304, which is neither 2xx nor 404 — does not make `get_open_position_qty`
raise: `raise_for_status` only raises for 4xx/5xx. -/
theorem non_4xx5xx_no_raise_cex :
    ¬(200 ≤ (304 : Nat) ∧ (304 : Nat) < 300) ∧ (304 : Nat) ≠ 404
    ∧ get_open_position_qty ⟨304, [("qty", "7")]⟩ = .ok 7 :=
  ⟨by decide, by decide, rfl⟩

/-- Amended C6: for every response whose status is in `[400, 600)` and not
404 (this includes 500), `get_open_position_qty` raises the `HTTPError`,
and an in-window run aborts with that error, so no mail send is reached. -/
theorem http_error_aborts_run (resp : HttpResponse)
    (h4 : 400 ≤ resp.status) (h6 : resp.status < 600) (hn : resp.status ≠ 404) :
    get_open_position_qty resp = .error (.httpError resp.status)
    ∧ ∀ cfg hour minute, in_window_utc cfg hour minute = some true →
        decide_and_notify cfg hour minute resp =
          .error (.fetchError (.httpError resp.status)) := by
  have hfetch : get_open_position_qty resp = .error (.httpError resp.status) := by
    unfold get_open_position_qty alpaca_get
    rw [if_pos ⟨h4, h6⟩]
    simp [hn]
  refine ⟨hfetch, fun cfg hour minute hwin => ?_⟩
  unfold decide_and_notify
  rw [hwin, hfetch]

/-- Witness for the amended C6 at a concrete 500 response. -/
theorem http_error_aborts_run_witness :
    get_open_position_qty ⟨500, []⟩ = .error (.httpError 500)
    ∧ decide_and_notify cfgDefault 15 0 ⟨500, []⟩ =
        .error (.fetchError (.httpError 500)) :=
  ⟨(http_error_aborts_run ⟨500, []⟩ (by decide) (by decide) (by decide)).1,
   (http_error_aborts_run ⟨500, []⟩ (by decide) (by decide) (by decide)).2
     cfgDefault 15 0 rfl⟩

/-- Counterexample for C7: a 2xx response whose `qty` field is `"-3"` is
accepted without error and yields the negative quantity -3: the code does
not enforce `quantity ≥ 0`. -/
theorem negative_qty_cex :
    get_open_position_qty ⟨200, [("qty", "-3")]⟩ = .ok (-3) ∧ (-3 : Int) < 0 :=
  ⟨rfl, by decide⟩

/-- Amended C7: the returned quantity is non-negative for every accepted
response whose `qty` field (defaulting to `"0"`) parses to a non-negative
number; the 404 no-position case returns 0.  The code performs no
validation, so a negative server-reported `qty` propagates. -/
theorem qty_nonneg_of_nonneg_field (resp : HttpResponse) (q : Int)
    (hq : get_open_position_qty resp = .ok q)
    (hnn : ∃ n : Int, pyFloatTruncInt? (pyDictGet resp.json "qty" "0") = some n
            ∧ 0 ≤ n) :
    0 ≤ q := by
  obtain ⟨n, hn, hpos⟩ := hnn
  unfold get_open_position_qty alpaca_get at hq
  by_cases h : 400 ≤ resp.status ∧ resp.status < 600
  · rw [if_pos h] at hq
    by_cases h404 : resp.status = 404
    · simp [h404] at hq
      omega
    · simp [h404] at hq
  · rw [if_neg h] at hq
    simp [hn] at hq
    omega

/-- Witness for the amended C7: a 2xx response with `qty` `"3.0"` yields a
non-negative quantity. -/
theorem qty_nonneg_of_nonneg_field_witness :
    get_open_position_qty ⟨200, [("qty", "3.0")]⟩ = .ok 3 ∧ (0 : Int) ≤ 3 :=
  ⟨rfl, qty_nonneg_of_nonneg_field ⟨200, [("qty", "3.0")]⟩ 3 rfl
    ⟨3, rfl, by decide⟩⟩

/-- Claim C8: `MAX_TRADES_PER_DAY` is read but unused: two configurations
differing only in that value produce identical run results and identical
notifier behavior for the same time, response and mode. -/
theorem max_trades_per_day_unused (c : Config) (x : Int) (hour minute : Nat)
    (resp : HttpResponse) :
    decide_and_notify { c with max_trades_per_day := x } hour minute resp =
      decide_and_notify c hour minute resp
    ∧ ∀ subject body,
        send_email { c with max_trades_per_day := x } subject body =
          send_email c subject body :=
  ⟨rfl, fun _ _ => rfl⟩

/-- Claim C9: a successful (2xx) response whose JSON object lacks a `qty`
field makes `get_open_position_qty` return 0 rather than raise, because the
field lookup defaults to the string `"0"`. -/
theorem missing_qty_field_zero (resp : HttpResponse)
    (h2 : 200 ≤ resp.status ∧ resp.status < 300)
    (hmiss : resp.json.lookup "qty" = none) :
    get_open_position_qty resp = .ok 0 := by
  have hns : ¬(400 ≤ resp.status ∧ resp.status < 600) := by omega
  have hget : pyDictGet resp.json "qty" "0" = "0" := by
    unfold pyDictGet
    rw [hmiss]
  unfold get_open_position_qty alpaca_get
  rw [if_neg hns]
  show (match pyFloatTruncInt? (pyDictGet resp.json "qty" "0") with
        | some q => Except.ok q
        | none => Except.error FetchError.valueError) = Except.ok 0
  rw [hget]
  rfl

/-- Witness for C9 at a 200 response with an empty JSON object. -/
theorem missing_qty_field_zero_witness :
    List.lookup "qty" ([] : List (String × String)) = none
    ∧ get_open_position_qty ⟨200, []⟩ = .ok 0 :=
  ⟨rfl, missing_qty_field_zero ⟨200, []⟩ (by decide) rfl⟩

/-- Counterexample for C10: an out-of-range boundary does parse silently
("99:99" gives 6039 without an error), but when it is the END boundary the
window test CAN still be satisfied — with start "14:35" and end "99:99"
the gate accepts 15:00 UTC — refuting the final clause of the claim. -/
theorem out_of_range_end_window_sat_cex :
    cfgBadEnd.window_end = "99:99"
    ∧ hhmm_to_minutes "99:99" = some 6039
    ∧ in_window_utc cfgBadEnd 15 0 = some true :=
  ⟨rfl, rfl, rfl⟩

/-- Amended C10: every boundary string splitting on ":" into exactly two
int()-parseable parts makes `hhmm_to_minutes` return `int(H)*60+int(M)`
without raising, even when H or M is numerically out of range (e.g.
"99:99"); such a boundary silently changes the window instead of erroring
(an out-of-range start above 1439 makes the window unsatisfiable, while an
out-of-range end can leave it satisfiable). -/
theorem hhmm_no_range_check (s h m : String) (vh vm : Int)
    (hsplit : pySplit s ':' = [h, m])
    (hh : pyInt? h = some vh) (hm : pyInt? m = some vm) :
    hhmm_to_minutes s = some (vh * 60 + vm) := by
  unfold hhmm_to_minutes
  rw [hsplit]
  show (match pyInt? h, pyInt? m with
        | some hv, some mv => some (hv * 60 + mv)
        | _, _ => none) = some (vh * 60 + vm)
  rw [hh, hm]

/-- Witness for the amended C10: "99:99" yields 99*60+99 without error. -/
theorem hhmm_no_range_check_witness :
    hhmm_to_minutes "99:99" = some (99 * 60 + 99) :=
  hhmm_no_range_check "99:99" "99" "99" 99 99 rfl rfl rfl

end SpyBot
